import Mathlib

/-!
Verification of the conversational lead-intake backend in `src/main.py`
(wedding-event-expert chatbot).

The embedding models the chat handler (`chat`), the validators
(`is_valid_name`, `is_valid_location`, `is_valid_date_text`), the in-memory
session store (`sessions`), and the two notification collaborators
(Google-Sheet lead logging and WhatsApp notification) at their call boundary:
a `chat` step returns the updated session, the reply string, and the list of
collaborator invocations it performs, in order.

Python string primitives (`str.strip`, `str.title`, `str.isalpha`,
`str.isdigit`) are modelled character-exactly for the ASCII range via Lean's
`Char` classifiers, which is the range the program's menus, option codes and
example inputs use.
-/

set_option maxRecDepth 10000

namespace WeddingBot

/-! ### Python string primitives -/

/-- Python `str.strip()` on the character list: drop whitespace from both
ends. -/
def pyStripL (s : List Char) : List Char :=
  ((s.dropWhile Char.isWhitespace).reverse.dropWhile Char.isWhitespace).reverse

/-- Python `str.strip()` on strings. -/
def pyStrip (s : String) : String := ⟨pyStripL s.data⟩

/-- Python `str.title()` worker: the Boolean tracks whether the previous
character was alphabetic; an alphabetic character after a non-alphabetic one
is upper-cased, any other alphabetic character is lower-cased. -/
def pyTitleGo : Bool → List Char → List Char
  | _, [] => []
  | prevAlpha, c :: cs =>
    if c.isAlpha then
      (if prevAlpha then c.toLower else c.toUpper) :: pyTitleGo true cs
    else
      c :: pyTitleGo false cs

/-- Python `str.title()` on strings. -/
def pyTitle (s : String) : String := ⟨pyTitleGo false s.data⟩

/-! ### Validators (src/main.py lines 119-144) -/

/-- `is_valid_name` from src/main.py: strip, reject length < 2, else require
at least one alphabetic character. -/
def is_valid_name (text : String) : Bool :=
  let t := pyStripL text.data
  if t.length < 2 then false
  else t.any Char.isAlpha

/-- `is_valid_location` from src/main.py: same body as `is_valid_name`. -/
def is_valid_location (text : String) : Bool :=
  let t := pyStripL text.data
  if t.length < 2 then false
  else t.any Char.isAlpha

/-- `is_valid_date_text` from src/main.py: strip, reject length < 5, else
require at least one digit. -/
def is_valid_date_text (text : String) : Bool :=
  let t := pyStripL text.data
  if t.length < 5 then false
  else t.any Char.isDigit

/-! ### Sessions and collaborator calls -/

/-- One collaborator invocation performed by the handler.
`logSheet` is `log_booking_to_sheet(name, event_type, location, when_text)`;
`whatsapp` is `send_whatsapp_notifications(name, event_type, location,
when_text)`. -/
inductive Call where
  | logSheet (name event_type location when_text : String)
  | whatsapp (name event_type location when_text : String)
deriving DecidableEq

/-- Recognizer for the lead-logging collaborator call. -/
def Call.isLogSheet : Call → Bool
  | .logSheet _ _ _ _ => true
  | _ => false

/-- Recognizer for the chat-notification collaborator call. -/
def Call.isWhatsapp : Call → Bool
  | .whatsapp _ _ _ _ => true
  | _ => false

/-- A session: the Python dict stored in `sessions`, with `step` plus the
accumulated fields, each absent until its collecting step succeeds. -/
structure Session where
  step : String
  name : Option String := none
  date : Option String := none
  time_slot : Option String := none
  event_type : Option String := none
  location : Option String := none
deriving DecidableEq

/-- The default session `\x7b"step": "ask_name"\x7d` used when the session id
is not in the store. -/
def freshSession : Session := { step := "ask_name" }

/-! ### Reply strings (transcribed from src/main.py) -/

/-- Re-ask prompt of the `ask_name` step (invalid name). -/
def replyAskNameRetry : String :=
  "Hi again 😊<br>" ++
  "Please share your <b>first name</b> (no numbers or emojis).<br>" ++
  "Example: <i>Ananya</i>, <i>Rahul</i>, <i>Divya</i>"

/-- Reply after a valid name: the step-2 date prompt. -/
def replyNameOk (text : String) : String :=
  "Lovely name, " ++ text ++ "! 💐<br><br>" ++
  "Step 2 of 4: Which <b>date</b> works best for your consultation call?<br><br>" ++
  "You can select from the calendar below or type like:<br>" ++
  "<i>25 Dec</i> or <i>12 Jan 2026</i>"

/-- Re-ask prompt of the `ask_date` step. -/
def replyAskDateRetry : String :=
  "Please select or type a clear date for the call 😊<br>" ++
  "Example: <i>25 Dec</i> or <i>12/01/2026</i>"

/-- Reply after a valid date: the time-slot menu. -/
def replyDateOk : String :=
  "Perfect, date noted 📅<br><br>" ++
  "Now choose a <b>time slot</b> for your call (IST).<br>" ++
  "We are available between <b>11:00 AM and 8:00 PM</b>.<br><br>" ++
  "Please pick one option:<br><br>" ++
  "1️⃣ 11:00 AM – 12:00 PM<br>" ++
  "2️⃣ 12:00 PM – 1:00 PM<br>" ++
  "3️⃣ 1:00 PM – 2:00 PM<br>" ++
  "4️⃣ 2:00 PM – 3:00 PM<br>" ++
  "5️⃣ 3:00 PM – 4:00 PM<br>" ++
  "6️⃣ 4:00 PM – 5:00 PM<br>" ++
  "7️⃣ 5:00 PM – 6:00 PM<br>" ++
  "8️⃣ 6:00 PM – 7:00 PM<br>" ++
  "9️⃣ 7:00 PM – 8:00 PM<br><br>" ++
  "Reply with a number between <b>1</b> and <b>9</b>."

/-- Re-ask prompt of the `ask_time_slot` step. -/
def replySlotRetry : String :=
  "Just pick a time from the list above 😊<br>" ++
  "Reply with a number between <b>1</b> and <b>9</b>."

/-- Reply after a valid time slot: the event-type menu. -/
def replySlotOk : String :=
  "Nice, time slot locked in! ⏰<br><br>" ++
  "Step 3 of 4: Which event are you planning?<br><br>" ++
  "1️⃣ Wedding<br>" ++
  "2️⃣ Reception<br>" ++
  "3️⃣ Mehendi<br>" ++
  "4️⃣ Sangeet<br>" ++
  "5️⃣ Engagement<br>" ++
  "6️⃣ Other"

/-- Re-ask prompt of the `ask_event_type` step. -/
def replyEventRetry : String :=
  "To plan it right, please pick one option 😇<br><br>" ++
  "Reply with:<br>" ++
  "1️⃣ Wedding<br>" ++
  "2️⃣ Reception<br>" ++
  "3️⃣ Mehendi<br>" ++
  "4️⃣ Sangeet<br>" ++
  "5️⃣ Engagement<br>" ++
  "6️⃣ Other"

/-- Prompt issued when option 6 (Other) is chosen at `ask_event_type`. -/
def replyOtherPrompt : String :=
  "Nice! 🎉<br>" ++
  "Please type the event name you’re planning.<br>" ++
  "Example: <i>Baby shower</i>, <i>Puberty function</i>, <i>Corporate event</i>"

/-- Reply after choosing a menu event type (options 1-5). -/
def replyEventOk (event_type : String) : String :=
  "Beautiful, we’ll plan for <b>" ++ event_type ++ "</b> ✨<br><br>" ++
  "Step 4 of 4: Which <b>city/location</b> is the event happening in?"

/-- Re-ask prompt of the `ask_other_event` step. -/
def replyOtherRetry : String :=
  "Please share a clear event name 😊<br>" ++
  "Example: <i>Baby shower</i>, <i>Puberty function</i>"

/-- Reply after a valid custom event name. -/
def replyOtherOk (event_type : String) : String :=
  "Lovely! We’ll plan for <b>" ++ event_type ++ "</b> 🎉<br><br>" ++
  "Step 4 of 4: Which <b>city/location</b> is the event happening in?"

/-- Re-ask prompt of the `ask_location` step. -/
def replyLocationRetry : String :=
  "Please share a valid city or location name 🌍<br>" ++
  "Example: <i>Chennai</i>, <i>Bangalore – Whitefield</i>, <i>Coimbatore</i>"

/-- Terminal confirmation reply, sent on the transition to `done`. -/
def replyFinal (name event_type location when_text : String) : String :=
  "Thank you, " ++ name ++ "! ✨<br><br>" ++
  "Your details are shared with our Wedding Event Expert.<br><br>" ++
  "🎉 <b>Event:</b> " ++ event_type ++ "<br>" ++
  "📍 <b>Location:</b> " ++ location ++ "<br>" ++
  "📅 <b>Preferred:</b> " ++ when_text ++ "<br><br>" ++
  "Our expert will review this and reach out to you shortly to confirm the exact slot and next steps 💐"

/-- The fixed reply of the final `else` branch (session already complete, or
any unrecognized step value). -/
def replyDone : String :=
  "Your details are already captured 😊<br>" ++
  "If you’d like to restart the chat, simply refresh the page."

/-! ### Static lookup tables -/

/-- The `slots` dict at `ask_time_slot`: option code to hourly window. -/
def slots : String → Option String
  | "1" => some "11:00 AM – 12:00 PM"
  | "2" => some "12:00 PM – 1:00 PM"
  | "3" => some "1:00 PM – 2:00 PM"
  | "4" => some "2:00 PM – 3:00 PM"
  | "5" => some "3:00 PM – 4:00 PM"
  | "6" => some "4:00 PM – 5:00 PM"
  | "7" => some "5:00 PM – 6:00 PM"
  | "8" => some "6:00 PM – 7:00 PM"
  | "9" => some "7:00 PM – 8:00 PM"
  | _ => none

/-- The nine fixed hourly windows between 11:00 and 20:00, in menu order. -/
def nineWindows : List String :=
  ["11:00 AM – 12:00 PM", "12:00 PM – 1:00 PM", "1:00 PM – 2:00 PM",
   "2:00 PM – 3:00 PM", "3:00 PM – 4:00 PM", "4:00 PM – 5:00 PM",
   "5:00 PM – 6:00 PM", "6:00 PM – 7:00 PM", "7:00 PM – 8:00 PM"]

/-- The `mapping` dict at `ask_event_type` for options 1-5. -/
def eventMapping : String → Option String
  | "1" => some "Wedding"
  | "2" => some "Reception"
  | "3" => some "Mehendi"
  | "4" => some "Sangeet"
  | "5" => some "Engagement"
  | _ => none

/-! ### The chat handler (src/main.py lines 149-325) -/

/-- One execution of the body of `chat` on an already-looked-up session:
returns the session that will be written back, the reply, and the
collaborator calls made, in order.  Mirrors the if/elif chain of the source;
the dict-membership test `text not in slots` and the subsequent
`slots[text]` indexing are rendered with one `Option` lookup (the source
checks membership before indexing, so `KeyError` cannot occur). -/
def chatStep (s : Session) (msgText : String) : Session × String × List Call :=
  let text := pyStrip msgText
  if s.step = "ask_name" then
    if !is_valid_name text then
      (s, replyAskNameRetry, [])
    else
      ({ s with name := some text, step := "ask_date" }, replyNameOk text, [])
  else if s.step = "ask_date" then
    if !is_valid_date_text text then
      (s, replyAskDateRetry, [])
    else
      ({ s with date := some text, step := "ask_time_slot" }, replyDateOk, [])
  else if s.step = "ask_time_slot" then
    match slots text with
    | none => (s, replySlotRetry, [])
    | some slot =>
      ({ s with time_slot := some slot, step := "ask_event_type" }, replySlotOk, [])
  else if s.step = "ask_event_type" then
    if !(["1", "2", "3", "4", "5", "6"].contains text) then
      (s, replyEventRetry, [])
    else if text = "6" then
      ({ s with step := "ask_other_event" }, replyOtherPrompt, [])
    else
      let et := (eventMapping text).getD ""
      ({ s with event_type := some et, step := "ask_location" }, replyEventOk et, [])
  else if s.step = "ask_other_event" then
    if !is_valid_name text then
      (s, replyOtherRetry, [])
    else
      let et := pyTitle (pyStrip text)
      ({ s with event_type := some et, step := "ask_location" }, replyOtherOk et, [])
  else if s.step = "ask_location" then
    if !is_valid_location text then
      (s, replyLocationRetry, [])
    else
      let s2 := { s with location := some text, step := "done" }
      let name := s2.name.getD ""
      let event_type := s2.event_type.getD ""
      let location := s2.location.getD ""
      let date_text := s2.date.getD ""
      let time_slot := s2.time_slot.getD ""
      let when_text := date_text ++ " • " ++ time_slot
      (s2, replyFinal name event_type location when_text,
       [Call.logSheet name event_type location when_text,
        Call.whatsapp name event_type location when_text])
  else
    (s, replyDone, [])

/-! ### Session store (the module-level `sessions` dict) -/

/-- Lookup `sessions.get(session_id, default)` over an association-list
model of the dict. -/
def sessionsGet (store : List (String × Session)) (id : String) : Session :=
  match store.find? (fun p => p.1 == id) with
  | some p => p.2
  | none => freshSession

/-- Assignment `sessions[session_id] = s`: unconditional overwrite
(insert-or-replace). -/
def sessionsPut (store : List (String × Session)) (id : String) (s : Session) :
    List (String × Session) :=
  match store with
  | [] => [(id, s)]
  | (k, v) :: rest =>
    if k = id then (id, s) :: rest else (k, v) :: sessionsPut rest id s

/-- The full `chat` endpoint: look the session up (or create it), run one
step, write it back, return the reply and the collaborator calls. -/
def chat (store : List (String × Session)) (id : String) (text : String) :
    List (String × Session) × String × List Call :=
  let r := chatStep (sessionsGet store id) text
  (sessionsPut store id r.1, r.2.1, r.2.2)

/-! ### Conversations: iterating the handler on one session -/

/-- Final session after feeding a list of messages, in order, to one
session. -/
def runMsgs (s : Session) : List String → Session
  | [] => s
  | m :: ms => runMsgs (chatStep s m).1 ms

/-- All collaborator calls made while feeding a list of messages, in order,
to one session. -/
def runCalls (s : Session) : List String → List Call
  | [] => []
  | m :: ms => (chatStep s m).2.2 ++ runCalls (chatStep s m).1 ms

/-- The six step values that select a branch of the if/elif chain; every
other step value (including `done`) falls to the final `else`. -/
def recognizedSteps : List String :=
  ["ask_name", "ask_date", "ask_time_slot", "ask_event_type",
   "ask_other_event", "ask_location"]

/-- The enumerated step identifiers of the state machine. -/
def enumSteps : List String := recognizedSteps ++ ["done"]

/-- Exact field-presence invariant: the step value determines exactly which
fields are set. -/
def sessionInv (s : Session) : Bool :=
  if s.step = "ask_name" then
    s.name.isNone && s.date.isNone && s.time_slot.isNone &&
      s.event_type.isNone && s.location.isNone
  else if s.step = "ask_date" then
    s.name.isSome && s.date.isNone && s.time_slot.isNone &&
      s.event_type.isNone && s.location.isNone
  else if s.step = "ask_time_slot" then
    s.name.isSome && s.date.isSome && s.time_slot.isNone &&
      s.event_type.isNone && s.location.isNone
  else if s.step = "ask_event_type" then
    s.name.isSome && s.date.isSome && s.time_slot.isSome &&
      s.event_type.isNone && s.location.isNone
  else if s.step = "ask_other_event" then
    s.name.isSome && s.date.isSome && s.time_slot.isSome &&
      s.event_type.isNone && s.location.isNone
  else if s.step = "ask_location" then
    s.name.isSome && s.date.isSome && s.time_slot.isSome &&
      s.event_type.isSome && s.location.isNone
  else if s.step = "done" then
    s.name.isSome && s.date.isSome && s.time_slot.isSome &&
      s.event_type.isSome && s.location.isSome
  else
    false

/-- A concrete happy-path conversation used by witnesses: name, date, slot 3,
other event, custom event name, location. -/
def happyMsgs : List String :=
  ["Ananya", "18 Nov 2025", "3", "6", "Baby Shower", "Chennai"]

/-- The nine option codes accepted at `ask_time_slot`. -/
def nineKeys : List String := ["1", "2", "3", "4", "5", "6", "7", "8", "9"]

/-- Worker for `strContains`: the first list is a leading segment of the
second. -/
def listIsPre : List Char → List Char → Bool
  | [], _ => true
  | _ :: _, [] => false
  | a :: as, b :: bs => a == b && listIsPre as bs

/-- Worker for `strContains`: the needle occurs as a contiguous segment of
the haystack. -/
def listHasSeg (needle : List Char) : List Char → Bool
  | [] => listIsPre needle []
  | b :: bs => listIsPre needle (b :: bs) || listHasSeg needle bs

/-- Python substring test `needle in hay`. -/
def strContains (hay needle : String) : Bool := listHasSeg needle.data hay.data

/-- The per-step rejection condition of the if/elif chain: the validator
fails (free-text steps) or the option-set membership test fails (fixed-choice
steps).  `false` for `done` and unrecognized steps, which accept nothing and
reject nothing. -/
def rejectsInput (step text : String) : Bool :=
  if step = "ask_name" then !is_valid_name (pyStrip text)
  else if step = "ask_date" then !is_valid_date_text (pyStrip text)
  else if step = "ask_time_slot" then (slots (pyStrip text)).isNone
  else if step = "ask_event_type" then
    !(["1", "2", "3", "4", "5", "6"].contains (pyStrip text))
  else if step = "ask_other_event" then !is_valid_name (pyStrip text)
  else if step = "ask_location" then !is_valid_location (pyStrip text)
  else false

/-- The re-ask prompt each recognized step emits on rejected input. -/
def retryPrompt : String → String
  | "ask_name" => replyAskNameRetry
  | "ask_date" => replyAskDateRetry
  | "ask_time_slot" => replySlotRetry
  | "ask_event_type" => replyEventRetry
  | "ask_other_event" => replyOtherRetry
  | "ask_location" => replyLocationRetry
  | _ => replyDone

/-- Pointwise ordering on optional fields: set fields stay set with the same
value. -/
def fieldLE (a b : Option String) : Prop := ∀ v, a = some v → b = some v

/-- Session ordering: every already-set field keeps its value. -/
def sessionLE (s s' : Session) : Prop :=
  fieldLE s.name s'.name ∧ fieldLE s.date s'.date ∧
    fieldLE s.time_slot s'.time_slot ∧ fieldLE s.event_type s'.event_type ∧
    fieldLE s.location s'.location

/-- The session after name and date have been collected: at `ask_time_slot`. -/
def slotSession : Session := runMsgs freshSession ["Ananya", "18 Nov 2025"]

/-- The session after name, date and time slot: at `ask_event_type`. -/
def eventSession : Session := runMsgs freshSession ["Ananya", "18 Nov 2025", "3"]

/-- The session after choosing option 6 at `ask_event_type`. -/
def otherSession : Session := (chatStep eventSession "6").1

/-- The terminal session after the whole happy-path conversation. -/
def doneSession : Session := runMsgs freshSession happyMsgs

/-- A session whose step value is outside the enumerated set. -/
def weirdSession : Session := { step := "limbo", name := some "Ananya" }

example : (chatStep freshSession "Ananya").1.step = "ask_date" := by decide

example : (runMsgs freshSession happyMsgs).step = "done" := by decide

example : sessionInv (runMsgs freshSession happyMsgs) = true := by decide

example :
    runCalls freshSession happyMsgs =
      [Call.logSheet "Ananya" "Baby Shower" "Chennai" "18 Nov 2025 • 1:00 PM – 2:00 PM",
       Call.whatsapp "Ananya" "Baby Shower" "Chennai" "18 Nov 2025 • 1:00 PM – 2:00 PM"] := by
  decide

/-! ### Helper lemmas -/

/-- Any step value outside the six recognized branch selectors falls to the
final `else`: the session is returned unchanged with the fixed reply and no
collaborator call. -/
lemma chatStep_of_unrecognized (s : Session) (t : String)
    (h : s.step ∉ recognizedSteps) : chatStep s t = (s, replyDone, []) := by
  simp only [recognizedSteps, List.mem_cons, List.not_mem_nil, or_false,
    not_or] at h
  obtain ⟨h1, h2, h3, h4, h5, h6⟩ := h
  simp [chatStep, h1, h2, h3, h4, h5, h6]

/-- A single step preserves the exact field-presence invariant. -/
lemma sessionInv_step (s : Session) (t : String) (h : sessionInv s = true) :
    sessionInv (chatStep s t).1 = true := by
  unfold sessionInv at h
  split_ifs at h with h1 h2 h3 h4 h5 h6 h7
  · by_cases hv : is_valid_name (pyStrip t) = true
    · simp_all [chatStep, sessionInv]
    · simp_all [chatStep, sessionInv]
  · by_cases hv : is_valid_date_text (pyStrip t) = true
    · simp_all [chatStep, sessionInv]
    · simp_all [chatStep, sessionInv]
  · cases hsl : slots (pyStrip t) with
    | none => simp_all [chatStep, sessionInv]
    | some w => simp_all [chatStep, sessionInv]
  · by_cases hm : (["1", "2", "3", "4", "5", "6"].contains (pyStrip t)) = true
    · by_cases h6' : pyStrip t = "6"
      · simp_all [chatStep, sessionInv]
      · simp_all [chatStep, sessionInv]
    · simp_all [chatStep, sessionInv]
  · by_cases hv : is_valid_name (pyStrip t) = true
    · simp_all [chatStep, sessionInv]
    · simp_all [chatStep, sessionInv]
  · by_cases hv : is_valid_location (pyStrip t) = true
    · simp_all [chatStep, sessionInv]
    · simp_all [chatStep, sessionInv]
  · have hne : s.step ∉ recognizedSteps := by
      simp [recognizedSteps, h1, h2, h3, h4, h5, h6]
    rw [chatStep_of_unrecognized s t hne]
    simpa [sessionInv, h1, h2, h3, h4, h5, h6, h7] using h

/-- The invariant holds along any run that starts in an invariant state. -/
lemma sessionInv_run (s : Session) (msgs : List String)
    (h : sessionInv s = true) : sessionInv (runMsgs s msgs) = true := by
  induction msgs generalizing s with
  | nil => exact h
  | cons m ms ih => exact ih _ (sessionInv_step s m h)

/-- The fresh session satisfies the invariant. -/
lemma sessionInv_fresh : sessionInv freshSession = true := by decide

/-- Feeding a concatenated message list is running the two halves in
sequence. -/
lemma runMsgs_append (s : Session) (a b : List String) :
    runMsgs s (a ++ b) = runMsgs (runMsgs s a) b := by
  induction a generalizing s with
  | nil => rfl
  | cons m ms ih => simpa [runMsgs] using ih (chatStep s m).1

/-- Either a step makes no collaborator call, or it is the `ask_location`
success transition: it moves to `done` and emits exactly one lead-log call
followed by one chat-notification call. -/
lemma chatStep_calls (s : Session) (t : String) :
    (chatStep s t).2.2 = [] ∨
      (s.step = "ask_location" ∧ (chatStep s t).1.step = "done" ∧
        ∃ n e l w, (chatStep s t).2.2 =
          [Call.logSheet n e l w, Call.whatsapp n e l w]) := by
  by_cases h1 : s.step = "ask_name"
  · by_cases hv : is_valid_name (pyStrip t) = true <;> simp [chatStep, h1, hv]
  · by_cases h2 : s.step = "ask_date"
    · by_cases hv : is_valid_date_text (pyStrip t) = true <;>
        simp [chatStep, h1, h2, hv]
    · by_cases h3 : s.step = "ask_time_slot"
      · cases hsl : slots (pyStrip t) <;> simp [chatStep, h1, h2, h3, hsl]
      · by_cases h4 : s.step = "ask_event_type"
        · by_cases hm : (["1", "2", "3", "4", "5", "6"].contains (pyStrip t)) = true
          · have hm' : pyStrip t = "1" ∨ pyStrip t = "2" ∨ pyStrip t = "3" ∨
                pyStrip t = "4" ∨ pyStrip t = "5" ∨ pyStrip t = "6" := by
              simpa using hm
            rcases hm' with hx | hx | hx | hx | hx | hx <;>
              simp [chatStep, h1, h2, h3, h4, hx]
          · have hm' : ¬pyStrip t = "1" ∧ ¬pyStrip t = "2" ∧ ¬pyStrip t = "3" ∧
                ¬pyStrip t = "4" ∧ ¬pyStrip t = "5" ∧ ¬pyStrip t = "6" := by
              simpa [not_or] using hm
            obtain ⟨n1, n2, n3, n4, n5, n6⟩ := hm'
            simp [chatStep, h1, h2, h3, h4, n1, n2, n3, n4, n5, n6]
        · by_cases h5 : s.step = "ask_other_event"
          · by_cases hv : is_valid_name (pyStrip t) = true <;>
              simp [chatStep, h1, h2, h3, h4, h5, hv]
          · by_cases h6 : s.step = "ask_location"
            · by_cases hv : is_valid_location (pyStrip t) = true
              · right
                refine ⟨h6, ?_, ?_⟩ <;>
                  simp [chatStep, h1, h2, h3, h4, h5, h6, hv]
              · simp [chatStep, h1, h2, h3, h4, h5, h6, hv]
            · simp [chatStep, h1, h2, h3, h4, h5, h6]

/-- Once the step value leaves the recognized set (in particular once it is
`done`), no later message makes any collaborator call. -/
lemma runCalls_of_unrecognized (s : Session) (msgs : List String)
    (h : s.step ∉ recognizedSteps) : runCalls s msgs = [] := by
  induction msgs generalizing s with
  | nil => rfl
  | cons m ms ih =>
    have hstep := chatStep_of_unrecognized s m
    simp [runCalls, hstep h, ih s h]

/-- Over any conversation, each collaborator is invoked at most once. -/
lemma runCalls_atMostOnce (s : Session) (msgs : List String) :
    (runCalls s msgs).countP Call.isLogSheet ≤ 1 ∧
      (runCalls s msgs).countP Call.isWhatsapp ≤ 1 := by
  induction msgs generalizing s with
  | nil => simp [runCalls]
  | cons m ms ih =>
    rcases chatStep_calls s m with hc | ⟨_, hdone, n, e, l, w, hc⟩
    · have : runCalls s (m :: ms) = runCalls (chatStep s m).1 ms := by
        simp [runCalls, hc]
      rw [this]
      exact ih _
    · have hrest : runCalls (chatStep s m).1 ms = [] := by
        apply runCalls_of_unrecognized
        rw [hdone]
        decide
      have : runCalls s (m :: ms) = [Call.logSheet n e l w, Call.whatsapp n e l w] := by
        simp [runCalls, hc, hrest]
      rw [this]
      constructor <;> simp [List.countP_cons, Call.isLogSheet, Call.isWhatsapp]

/-- On invariant sessions, one step never clears or overwrites a set
field. -/
lemma sessionLE_step (s : Session) (t : String) (h : sessionInv s = true) :
    sessionLE s (chatStep s t).1 := by
  unfold sessionInv at h
  split_ifs at h with h1 h2 h3 h4 h5 h6 h7
  · by_cases hv : is_valid_name (pyStrip t) = true <;>
      simp_all [chatStep, sessionLE, fieldLE]
  · by_cases hv : is_valid_date_text (pyStrip t) = true <;>
      simp_all [chatStep, sessionLE, fieldLE]
  · cases hsl : slots (pyStrip t) <;> simp_all [chatStep, sessionLE, fieldLE]
  · by_cases hm : (["1", "2", "3", "4", "5", "6"].contains (pyStrip t)) = true
    · by_cases h6' : pyStrip t = "6" <;> simp_all [chatStep, sessionLE, fieldLE]
    · simp_all [chatStep, sessionLE, fieldLE]
  · by_cases hv : is_valid_name (pyStrip t) = true <;>
      simp_all [chatStep, sessionLE, fieldLE]
  · by_cases hv : is_valid_location (pyStrip t) = true <;>
      simp_all [chatStep, sessionLE, fieldLE]
  · have hne : s.step ∉ recognizedSteps := by
      simp [recognizedSteps, h1, h2, h3, h4, h5, h6]
    rw [chatStep_of_unrecognized s t hne]
    exact ⟨fun v hv => hv, fun v hv => hv, fun v hv => hv,
      fun v hv => hv, fun v hv => hv⟩

/-- On invariant sessions, no run of later messages clears or overwrites a
set field. -/
lemma sessionLE_run (s : Session) (msgs : List String)
    (h : sessionInv s = true) : sessionLE s (runMsgs s msgs) := by
  induction msgs generalizing s with
  | nil =>
    exact ⟨fun v hv => hv, fun v hv => hv, fun v hv => hv,
      fun v hv => hv, fun v hv => hv⟩
  | cons m ms ih =>
    have hstep := sessionLE_step s m h
    have hrest := ih (chatStep s m).1 (sessionInv_step s m h)
    obtain ⟨a1, a2, a3, a4, a5⟩ := hstep
    obtain ⟨b1, b2, b3, b4, b5⟩ := hrest
    exact ⟨fun v hv => b1 v (a1 v hv), fun v hv => b2 v (a2 v hv),
      fun v hv => b3 v (a3 v hv), fun v hv => b4 v (a4 v hv),
      fun v hv => b5 v (a5 v hv)⟩

/-- Every successful `slots` lookup lands in the nine-window list. -/
lemma slots_mem_nineWindows (k w : String) (h : slots k = some w) :
    w ∈ nineWindows := by
  unfold slots at h
  split at h <;> simp_all [nineWindows]

/-- Every option code in `"1".."9"` has a window in the `slots` table, and
that window is one of the nine fixed ones. -/
lemma slots_of_mem (k : String) (hk : k ∈ nineKeys) :
    ∃ w, slots k = some w ∧ w ∈ nineWindows := by
  simp only [nineKeys, List.mem_cons, List.not_mem_nil, or_false] at hk
  rcases hk with h | h | h | h | h | h | h | h | h <;> subst h <;>
    exact ⟨_, rfl, by decide⟩

/-- An invariant session's step value lies in the enumerated set. -/
lemma sessionInv_mem (s : Session) (h : sessionInv s = true) :
    s.step ∈ enumSteps := by
  unfold sessionInv at h
  split_ifs at h with h1 h2 h3 h4 h5 h6 h7 <;>
    simp_all [enumSteps, recognizedSteps]

/-- An invariant session at `done` has every field set. -/
lemma sessionInv_done (s : Session) (h : sessionInv s = true)
    (hd : s.step = "done") :
    s.name.isSome = true ∧ s.date.isSome = true ∧ s.time_slot.isSome = true ∧
      s.event_type.isSome = true ∧ s.location.isSome = true := by
  unfold sessionInv at h
  rw [hd] at h
  simpa [and_assoc] using h

/-! ### Claim theorems -/

/-- Claim C1, counterexample: from a fresh session at `ask_name`, the valid
input "Ananya" stores the name, but the session advances to `ask_date` — not
`ask_event_type` as claimed — and the reply is the date prompt, which does
not contain the event-type menu. -/
theorem C1_counterexample :
    (chatStep freshSession "Ananya").1.name = some "Ananya" ∧
      (chatStep freshSession "Ananya").1.step = "ask_date" ∧
      ¬(chatStep freshSession "Ananya").1.step = "ask_event_type" ∧
      (chatStep freshSession "Ananya").2.1 = replyNameOk "Ananya" ∧
      strContains (chatStep freshSession "Ananya").2.1 "Wedding" = false := by
  decide

/-- Claim C1 (amended): for every session in state `ask_name`, a message
whose trimmed text passes the name validator stores that trimmed text as the
session's name and advances the session state to `ask_date`, with the reply
being the step-2 date prompt; no collaborator is called. -/
theorem C1_name_stores_and_advances (s : Session) (t : String)
    (h : s.step = "ask_name") (hv : is_valid_name (pyStrip t) = true) :
    chatStep s t =
      ({ s with name := some (pyStrip t), step := "ask_date" },
        replyNameOk (pyStrip t), []) := by
  simp [chatStep, h, hv]

/-- Claim C1, witness: the amended theorem at the fresh session with input
"Ananya". -/
theorem C1_witness :
    chatStep freshSession "Ananya" =
      ({ freshSession with name := some "Ananya", step := "ask_date" },
        replyNameOk "Ananya", []) := by
  have h := C1_name_stores_and_advances freshSession "Ananya" rfl (by decide)
  rw [(by decide : pyStrip "Ananya" = "Ananya")] at h
  exact h

/-- Claim C2, counterexample: at `ask_time_slot` (reached with name "Ananya"
and date "18 Nov 2025"), input "3" stores the mapped window but advances to
`ask_event_type`, not `done`, and makes no collaborator call. -/
theorem C2_counterexample :
    slotSession.step = "ask_time_slot" ∧
      (chatStep slotSession "3").1.time_slot = some "1:00 PM – 2:00 PM" ∧
      ¬(chatStep slotSession "3").1.step = "done" ∧
      (chatStep slotSession "3").1.step = "ask_event_type" ∧
      (chatStep slotSession "3").2.2 = [] := by
  decide

/-- Claim C2 (amended): for every session in state `ask_time_slot`, an input
in `"1".."9"` maps via the static nine-entry table to one of the nine fixed
hourly windows between 11:00 and 20:00 and stores that window as the time
slot, but the state advances to `ask_event_type` (not `done`) and no
collaborator is invoked at this transition. -/
theorem C2_slot_stores_and_advances (s : Session) (t : String)
    (h : s.step = "ask_time_slot") (hk : pyStrip t ∈ nineKeys) :
    ∃ w, slots (pyStrip t) = some w ∧ w ∈ nineWindows ∧
      chatStep s t =
        ({ s with time_slot := some w, step := "ask_event_type" },
          replySlotOk, []) := by
  obtain ⟨w, hw, hmem⟩ := slots_of_mem _ hk
  exact ⟨w, hw, hmem, by simp [chatStep, h, hw]⟩

/-- Claim C2, witness: the amended theorem at a concrete `ask_time_slot`
session with input "3". -/
theorem C2_witness :
    ∃ w, slots (pyStrip "3") = some w ∧ w ∈ nineWindows ∧
      chatStep slotSession "3" =
        ({ slotSession with time_slot := some w, step := "ask_event_type" },
          replySlotOk, []) :=
  C2_slot_stores_and_advances slotSession "3" (by decide) (by decide)

/-- Claim C3: a session at `done` answers every further message with the
fixed already-captured reply, stays at `done` with all fields untouched, and
makes no collaborator call; and over any whole conversation from a fresh
session, each collaborator is invoked at most once. -/
theorem C3_done_idempotent (s : Session) (t : String) (msgs : List String) :
    (s.step = "done" → chatStep s t = (s, replyDone, [])) ∧
      (runCalls freshSession msgs).countP Call.isLogSheet ≤ 1 ∧
      (runCalls freshSession msgs).countP Call.isWhatsapp ≤ 1 := by
  refine ⟨fun hd => ?_, (runCalls_atMostOnce freshSession msgs).1,
    (runCalls_atMostOnce freshSession msgs).2⟩
  apply chatStep_of_unrecognized
  rw [hd]
  decide

/-- Claim C3, witness: the completed happy-path session answers "hello
again" with the fixed reply and no further calls; the extended conversation
still has at most one call per collaborator. -/
theorem C3_witness :
    chatStep doneSession "hello again" = (doneSession, replyDone, []) ∧
      (runCalls freshSession (happyMsgs ++ ["hello again"])).countP
          Call.isLogSheet ≤ 1 ∧
      (runCalls freshSession (happyMsgs ++ ["hello again"])).countP
          Call.isWhatsapp ≤ 1 :=
  ⟨(C3_done_idempotent doneSession "hello again"
      (happyMsgs ++ ["hello again"])).1 (by decide),
    (C3_done_idempotent doneSession "hello again"
      (happyMsgs ++ ["hello again"])).2.1,
    (C3_done_idempotent doneSession "hello again"
      (happyMsgs ++ ["hello again"])).2.2⟩

/-- Claim C4: at every recognized non-terminal step, an input failing that
step's validator or membership test leaves the session (state and all
fields) unchanged, re-emits that step's re-ask prompt, and makes no
collaborator call. -/
theorem C4_invalid_reasks (s : Session) (t : String)
    (hmem : s.step ∈ recognizedSteps) (hrej : rejectsInput s.step t = true) :
    chatStep s t = (s, retryPrompt s.step, []) := by
  simp only [recognizedSteps, List.mem_cons, List.not_mem_nil, or_false]
    at hmem
  rcases hmem with h | h | h | h | h | h <;>
    rw [rejectsInput, h] at hrej <;> simp at hrej
  · simp [chatStep, retryPrompt, h, hrej]
  · simp [chatStep, retryPrompt, h, hrej]
  · simp [chatStep, retryPrompt, h, hrej]
  · obtain ⟨n1, n2, n3, n4, n5, n6⟩ := hrej
    simp [chatStep, retryPrompt, h, n1, n2, n3, n4, n5, n6]
  · simp [chatStep, retryPrompt, h, hrej]
  · simp [chatStep, retryPrompt, h, hrej]

/-- Claim C4, witness: input "0" at a concrete `ask_time_slot` session
re-asks for a number 1-9 with the session unchanged and no side effect. -/
theorem C4_witness :
    chatStep slotSession "0" = (slotSession, retryPrompt "ask_time_slot", []) := by
  have h := C4_invalid_reasks slotSession "0" (by decide) (by decide)
  rw [(by decide : slotSession.step = "ask_time_slot")] at h
  exact h

/-- Claim C5: along every conversation from a fresh session, the step value
stays in the enumerated set and determines exactly which fields are present
(the exact-presence invariant `sessionInv`); in particular at `done` all
five fields are set. -/
theorem C5_state_enumerated_and_fields (msgs : List String) :
    (runMsgs freshSession msgs).step ∈ enumSteps ∧
      sessionInv (runMsgs freshSession msgs) = true ∧
      ((runMsgs freshSession msgs).step = "done" →
        (runMsgs freshSession msgs).name.isSome = true ∧
        (runMsgs freshSession msgs).date.isSome = true ∧
        (runMsgs freshSession msgs).time_slot.isSome = true ∧
        (runMsgs freshSession msgs).event_type.isSome = true ∧
        (runMsgs freshSession msgs).location.isSome = true) := by
  have hinv := sessionInv_run freshSession msgs sessionInv_fresh
  exact ⟨sessionInv_mem _ hinv, hinv, fun hd => sessionInv_done _ hinv hd⟩

/-- Claim C5, witness: the invariant evaluated on the completed happy-path
conversation, with the terminal implication discharged. -/
theorem C5_witness :
    (runMsgs freshSession happyMsgs).step ∈ enumSteps ∧
      sessionInv (runMsgs freshSession happyMsgs) = true ∧
      ((runMsgs freshSession happyMsgs).name.isSome = true ∧
        (runMsgs freshSession happyMsgs).date.isSome = true ∧
        (runMsgs freshSession happyMsgs).time_slot.isSome = true ∧
        (runMsgs freshSession happyMsgs).event_type.isSome = true ∧
        (runMsgs freshSession happyMsgs).location.isSome = true) :=
  ⟨(C5_state_enumerated_and_fields happyMsgs).1,
    (C5_state_enumerated_and_fields happyMsgs).2.1,
    (C5_state_enumerated_and_fields happyMsgs).2.2 (by decide)⟩

/-- Claim C6: fields accumulate monotonically — whatever is set after some
prefix of a conversation is still set, with the same value, after any
continuation of that conversation. -/
theorem C6_fields_monotone (msgs more : List String) :
    sessionLE (runMsgs freshSession msgs)
      (runMsgs freshSession (msgs ++ more)) := by
  rw [runMsgs_append]
  exact sessionLE_run _ more (sessionInv_run freshSession msgs sessionInv_fresh)

/-- Claim C6, witness: every field of the completed happy-path session keeps
its value across a further message. -/
theorem C6_witness :
    (runMsgs freshSession (happyMsgs ++ ["see you"])).name = some "Ananya" ∧
      (runMsgs freshSession (happyMsgs ++ ["see you"])).date =
        some "18 Nov 2025" ∧
      (runMsgs freshSession (happyMsgs ++ ["see you"])).time_slot =
        some "1:00 PM – 2:00 PM" ∧
      (runMsgs freshSession (happyMsgs ++ ["see you"])).event_type =
        some "Baby Shower" ∧
      (runMsgs freshSession (happyMsgs ++ ["see you"])).location =
        some "Chennai" := by
  obtain ⟨h1, h2, h3, h4, h5⟩ := C6_fields_monotone happyMsgs ["see you"]
  exact ⟨h1 "Ananya" (by decide), h2 "18 Nov 2025" (by decide),
    h3 "1:00 PM – 2:00 PM" (by decide), h4 "Baby Shower" (by decide),
    h5 "Chennai" (by decide)⟩

/-- Claim C7: `is_valid_name` is true exactly when the trimmed input has
length at least 2 and contains an alphabetic character, and it is false
whenever no character of the trimmed input is alphabetic (pure punctuation,
digits, or other non-letters); being a total function, it never raises. -/
theorem C7_is_valid_name_spec (t : String) :
    (is_valid_name t = true ↔
      2 ≤ (pyStripL t.data).length ∧
        (pyStripL t.data).any Char.isAlpha = true) ∧
      ((pyStripL t.data).all (fun c => !c.isAlpha) = true →
        is_valid_name t = false) := by
  constructor
  · simp only [is_valid_name]
    split_ifs with h
    · constructor
      · intro hfalse
        simp at hfalse
      · rintro ⟨hlen, _⟩
        omega
    · constructor
      · intro hany
        exact ⟨by omega, hany⟩
      · rintro ⟨_, hany⟩
        exact hany
  · intro hall
    simp only [is_valid_name]
    split_ifs with h
    · rfl
    · cases hx : (pyStripL t.data).any Char.isAlpha
      · rfl
      · exfalso
        rw [List.any_eq_true] at hx
        obtain ⟨c, hc, hca⟩ := hx
        rw [List.all_eq_true] at hall
        have := hall c hc
        simp [hca] at this

/-- Claim C7, witness: the specification instantiated on an accepted name
and on rejected all-digit and all-punctuation inputs. -/
theorem C7_witness :
    is_valid_name "Ananya" = true ∧ is_valid_name "12345" = false ∧
      is_valid_name "!!!" = false :=
  ⟨(C7_is_valid_name_spec "Ananya").1.mpr (by decide),
    (C7_is_valid_name_spec "12345").2 (by decide),
    (C7_is_valid_name_spec "!!!").2 (by decide)⟩

/-- Claim C8: the location validator is extensionally equal to the name
validator — the two bodies are character-for-character the same rule. -/
theorem C8_location_eq_name : ∀ t : String, is_valid_location t = is_valid_name t :=
  fun _ => rfl

/-- Claim C9: at `ask_event_type`, input "6" moves to `ask_other_event`
without storing the event type; then any input passing the name validator
stores the stripped, title-cased text as the event type and moves to
`ask_location` (the stripping is applied once by the handler and once more
at the store site, exactly as in the source). -/
theorem C9_other_event_detour (s s2 : Session) (t t2 : String)
    (h : s.step = "ask_event_type") (h6 : pyStrip t = "6")
    (h2 : s2.step = "ask_other_event")
    (hv : is_valid_name (pyStrip t2) = true) :
    chatStep s t = ({ s with step := "ask_other_event" }, replyOtherPrompt, []) ∧
      chatStep s2 t2 =
        ({ s2 with
            event_type := some (pyTitle (pyStrip (pyStrip t2)))
            step := "ask_location" },
          replyOtherOk (pyTitle (pyStrip (pyStrip t2))), []) := by
  constructor
  · simp [chatStep, h, h6]
  · simp [chatStep, h2, hv]

/-- Claim C9, witness: "6" then "Baby Shower" yields event type
"Baby Shower" and state `ask_location`. -/
theorem C9_witness :
    chatStep eventSession "6" =
      ({ eventSession with step := "ask_other_event" }, replyOtherPrompt, []) ∧
      chatStep otherSession "Baby Shower" =
        ({ otherSession with
            event_type := some "Baby Shower"
            step := "ask_location" },
          replyOtherOk "Baby Shower", []) := by
  have h := C9_other_event_detour eventSession otherSession "6" "Baby Shower"
    (by decide) (by decide) (by decide) (by decide)
  rw [(by decide : pyTitle (pyStrip (pyStrip "Baby Shower")) = "Baby Shower")] at h
  exact h

/-- Claim C10: when the stored session's step value is outside the six
recognized branch selectors, the handler (a total function — it cannot
raise) returns the fixed already-captured reply, writes the session back
unchanged, and makes no collaborator call. -/
theorem C10_unknown_step_frame (store : List (String × Session))
    (id t : String) (h : (sessionsGet store id).step ∉ recognizedSteps) :
    chat store id t =
      (sessionsPut store id (sessionsGet store id), replyDone, []) := by
  unfold chat
  rw [chatStep_of_unrecognized _ _ h]

/-- Claim C10, witness: a stored session whose step is "limbo" is written
back byte-for-byte unchanged with the fixed reply and no calls. -/
theorem C10_witness :
    chat [("u1", weirdSession)] "u1" "hi" =
      ([("u1", weirdSession)], replyDone, []) := by
  have h := C10_unknown_step_frame [("u1", weirdSession)] "u1" "hi" (by decide)
  rw [h]
  decide

end WeddingBot
